import Mathlib

/-!
Shallow embedding of the OvaCare authentication core (`src/auth.py`).

The repository's live logic is the module `auth.py`: a bcrypt password
hasher (via passlib), a JWT token codec (via python-jose, HS256), an
in-memory credential store `TEMP_USER_DATABASE` (a dict keyed by
username), and the three FastAPI operations `signup`,
`login_for_access_token` and `get_current_user`.  The relational schema
in `db.py` is never used by this logic.

External primitives are embedded as follows.

* Python strings are lists of Unicode code points (`List Nat`);
  `str.encode('utf-8')` and `bytes.decode('utf-8', errors='ignore')`
  are implemented in full below (`utf8Encode`, `decodeIgnore`).
* bcrypt is modelled as an ideal (collision-free) salted one-way
  function: a digest is represented by its salt together with the
  byte string bcrypt consumed, two digests being equal exactly when
  ideal bcrypt would produce equal outputs.  passlib's bcrypt handler
  silently truncates the secret to 72 bytes before hashing or
  verifying, and `CryptContext.verify` raises `UnknownHashError` (a
  `ValueError`) when the digest string cannot be parsed; both
  behaviours are part of the model.
* python-jose's HS256 JWT is modelled as an ideal MAC: a well-formed
  token records the payload, the key used to sign, and the payload the
  signature binds; `jwt.decode` checks the signature first and then the
  `exp` claim, rejecting exactly when `exp < now` (leeway 0, seconds
  granularity).  A structurally corrupt token string is a separate
  constructor and always fails decoding with a `JWTError`.
* Nondeterminism (the bcrypt salt, the current time) is passed as an
  explicit parameter.
-/

namespace OvaCare

/-! ## UTF-8: `str.encode('utf-8')` and `bytes.decode('utf-8', errors='ignore')` -/

/-- Encoding of a single Unicode code point to UTF-8 bytes. -/
def utf8EncodeChar (c : Nat) : List Nat :=
  if c < 0x80 then [c]
  else if c < 0x800 then [0xC0 + c / 64, 0x80 + c % 64]
  else if c < 0x10000 then [0xE0 + c / 4096, 0x80 + (c / 64) % 64, 0x80 + c % 64]
  else [0xF0 + c / 262144, 0x80 + (c / 4096) % 64, 0x80 + (c / 64) % 64, 0x80 + c % 64]

/-- `str.encode('utf-8')`: a Python string is a list of code points. -/
def utf8Encode (s : List Nat) : List Nat :=
  (s.map utf8EncodeChar).flatten

/-- State of the incremental UTF-8 decoder: decoded code points so far
(reversed), accumulated bits of the current sequence, number of
continuation bytes still required, and the minimal code point the
current sequence may legally produce (overlong rejection). -/
structure DecSt where
  out : List Nat
  acc : Nat
  need : Nat
  low : Nat
  deriving Repr, DecidableEq

/-- Process a byte in start position.  Invalid bytes are dropped, as by
Python's `errors='ignore'` handler. -/
def startByte (out : List Nat) (b : Nat) : DecSt :=
  if b < 0x80 then ⟨b :: out, 0, 0, 0⟩
  else if b < 0xC2 then ⟨out, 0, 0, 0⟩
  else if b < 0xE0 then ⟨out, b - 0xC0, 1, 0x80⟩
  else if b < 0xF0 then ⟨out, b - 0xE0, 2, 0x800⟩
  else if b < 0xF5 then ⟨out, b - 0xF0, 3, 0x10000⟩
  else ⟨out, 0, 0, 0⟩

/-- One step of the UTF-8 decoder with `errors='ignore'`: an invalid or
incomplete sequence contributes nothing, and decoding restarts at the
offending byte. -/
def stepByte (st : DecSt) (b : Nat) : DecSt :=
  if st.need = 0 then startByte st.out b
  else if 0x80 ≤ b ∧ b < 0xC0 then
    let acc := st.acc * 64 + (b - 0x80)
    if st.need = 1 then
      if st.low ≤ acc ∧ (acc < 0xD800 ∨ 0xE000 ≤ acc) ∧ acc < 0x110000 then
        ⟨acc :: st.out, 0, 0, 0⟩
      else ⟨st.out, 0, 0, 0⟩
    else ⟨st.out, acc, st.need - 1, st.low⟩
  else startByte st.out b

/-- `bytes.decode('utf-8', errors='ignore')`: decode a byte string to
code points, silently dropping invalid or trailing incomplete
sequences. -/
def decodeIgnore (bs : List Nat) : List Nat :=
  ((bs.foldl stepByte ⟨[], 0, 0, 0⟩).out).reverse

/-! ## Password hasher (`pwd_context = CryptContext(schemes=["bcrypt"])`) -/

/-- An ideal bcrypt digest: bcrypt is one-way and (ideally)
collision-free, so a digest is faithfully represented by its salt and
the byte string bcrypt consumed — two digests agree exactly when ideal
bcrypt outputs agree. -/
structure Digest where
  salt : Nat
  body : List Nat
  deriving Repr, DecidableEq

/-- A digest string as stored: either a well-formed bcrypt hash or a
malformed string that passlib cannot identify. -/
inductive DigestStr where
  | wf (d : Digest)
  | malformed (s : String)
  deriving Repr, DecidableEq

/-- passlib error surfaced by `CryptContext.verify` on a digest it
cannot identify (`UnknownHashError`, a `ValueError`). -/
inductive PasslibError where
  | unknownHash
  deriving Repr, DecidableEq

/-- passlib's bcrypt handler truncates the secret to 72 bytes
(`truncate_size = 72`, silent by default). -/
def bcryptTruncate (bs : List Nat) : List Nat := bs.take 72

/-- Ideal bcrypt of a byte string under a salt (after the handler's
72-byte truncation). -/
def bcryptHash (salt : Nat) (bs : List Nat) : Digest :=
  ⟨salt, bcryptTruncate bs⟩

/-- `pwd_context.hash(secret)`: encode to UTF-8 and bcrypt under a
fresh salt. -/
def pwdContextHash (salt : Nat) (secret : List Nat) : DigestStr :=
  .wf (bcryptHash salt (utf8Encode secret))

/-- `pwd_context.verify(secret, hash)`: raises `UnknownHashError` on a
digest that cannot be identified; otherwise re-computes bcrypt of the
UTF-8 encoding of `secret` under the digest's salt and compares. -/
def pwdContextVerify (secret : List Nat) (hash : DigestStr) : Except PasslibError Bool :=
  match hash with
  | .malformed _ => .error .unknownHash
  | .wf d => .ok (bcryptHash d.salt (utf8Encode secret) == d)

/-- `verify_password` (auth.py line 25): direct call to
`pwd_context.verify`, no exception handling. -/
def verify_password (plain_password : List Nat) (hashed_password : DigestStr) :
    Except PasslibError Bool :=
  pwdContextVerify plain_password hashed_password

/-- `get_password_hash` (auth.py line 28): truncate the UTF-8 encoding
to 72 bytes, decode back with `errors='ignore'`, and hash the result. -/
def get_password_hash (salt : Nat) (password : List Nat) : DigestStr :=
  let password_bytes := (utf8Encode password).take 72
  let truncated_password := decodeIgnore password_bytes
  pwdContextHash salt truncated_password

/-! ## Token codec (python-jose, HS256) -/

/-- Module-level configuration (auth.py lines 16-18).  `SECRET_KEY`
reads `AUTH_SECRET_KEY` from the environment with a placeholder
default; the default is the value modelled here. -/
def SECRET_KEY : String := "placeholder_secret_key"

def ACCESS_TOKEN_EXPIRE_MINUTES : Int := 60

/-- The claims `get_current_user` reads: the `sub` entry (possibly
absent) and the `exp` timestamp in UTC epoch seconds. -/
structure TokenPayload where
  sub : Option String
  exp : Int
  deriving Repr, DecidableEq

/-- The `data` dict passed to `create_access_token`: in this program it
carries at most a `sub` entry. -/
structure PayloadData where
  sub : Option String
  deriving Repr, DecidableEq

/-- A well-formed JWT under the ideal-MAC model: the payload, the key
the signature was produced with, and the payload the signature binds.
Tampering with the payload leaves `macPayload` behind. -/
structure Token where
  payload : TokenPayload
  macKey : String
  macPayload : TokenPayload
  deriving Repr, DecidableEq

/-- A token string on the wire: either a structurally well-formed JWT
or a corrupt string that fails parsing. -/
inductive TokenWire where
  | tok (t : Token)
  | corrupt (s : String)
  deriving Repr, DecidableEq

/-- python-jose's `JWTError` hierarchy: structural failure, signature
mismatch, or `ExpiredSignatureError`.  `get_current_user` catches all
of them alike. -/
inductive JWTError where
  | invalidToken
  | badSignature
  | expired
  deriving Repr, DecidableEq

/-- `jwt.encode(claims, key, algorithm="HS256")`: sign the payload with
the key. -/
def jwtEncode (payload : TokenPayload) (key : String) : TokenWire :=
  .tok ⟨payload, key, payload⟩

/-- `jwt.decode(token, key, algorithms=["HS256"])` at time `now` (UTC
epoch seconds): structural parse, then signature check, then the `exp`
claim.  python-jose raises `ExpiredSignatureError` exactly when
`exp < now` (leeway 0), so a token is still accepted at `now = exp`. -/
def jwtDecode (w : TokenWire) (key : String) (now : Int) : Except JWTError TokenPayload :=
  match w with
  | .corrupt _ => .error .invalidToken
  | .tok t =>
    if t.macKey = key ∧ t.macPayload = t.payload then
      if t.payload.exp < now then .error .expired
      else .ok t.payload
    else .error .badSignature

/-- `create_access_token` (auth.py line 35).  `now` is
`datetime.now(timezone.utc)` in epoch seconds and `expires_delta` a
duration in seconds.  Note `if expires_delta:` is Python truthiness: a
zero `timedelta` falls through to the 60-minute default. -/
def create_access_token (now : Int) (data : PayloadData) (expires_delta : Option Int) :
    TokenWire :=
  let expire : Int :=
    match expires_delta with
    | some d => if d = 0 then now + ACCESS_TOKEN_EXPIRE_MINUTES * 60 else now + d
    | none => now + ACCESS_TOKEN_EXPIRE_MINUTES * 60
  jwtEncode ⟨data.sub, expire⟩ SECRET_KEY

/-! ## Credential store and request/response models -/

/-- A record stored in `TEMP_USER_DATABASE`: the dict
`{"username": ..., "email": ..., "hashed_password": ...}` built by
`signup`. -/
structure UserRec where
  username : String
  email : String
  hashed_password : DigestStr
  deriving Repr, DecidableEq

/-- `TEMP_USER_DATABASE` (auth.py line 47): an insertion-ordered dict
from username keys to records, embedded as an association list. -/
abbrev Db := List (String × UserRec)

/-- The response model `User` (auth.py line 50): the public view, only
`username` and `email`. -/
structure User where
  username : String
  email : String
  deriving Repr, DecidableEq

/-- The request model `UserSignup` (auth.py line 54). -/
structure UserSignup where
  username : String
  email : String
  password : List Nat
  deriving Repr, DecidableEq

/-- An `HTTPException` as raised by the handlers: status code, detail
message, and response headers. -/
structure HTTPError where
  status_code : Nat
  detail : String
  headers : List (String × String)
  deriving Repr, DecidableEq

/-- `username in TEMP_USER_DATABASE`: key membership. -/
def dbHasKey (db : Db) (u : String) : Bool :=
  db.any (fun p => p.1 == u)

/-- `TEMP_USER_DATABASE[username]` guarded by key membership: first
(only) entry under the key. -/
def dbLookup (db : Db) (u : String) : Option UserRec :=
  (db.find? (fun p => p.1 == u)).map (fun p => p.2)

/-! ## The three operations -/

/-- `signup` (auth.py line 81).  Returns the handler's outcome together
with the store it leaves behind; `salt` is the bcrypt salt drawn inside
`get_password_hash`.  `User(**new_user_data)` keeps only the model's
declared fields, so the extra `hashed_password` entry is ignored
(pydantic's default `extra` behaviour). -/
def signup (db : Db) (salt : Nat) (user : UserSignup) : Except HTTPError User × Db :=
  if dbHasKey db user.username then
    (.error ⟨400, "Username already registered", []⟩, db)
  else if db.any (fun p => p.2.email == user.email) then
    (.error ⟨400, "Email already registered", []⟩, db)
  else
    let hashed_password := get_password_hash salt user.password
    let new_user_data : UserRec := ⟨user.username, user.email, hashed_password⟩
    (.ok ⟨new_user_data.username, new_user_data.email⟩,
      db ++ [(user.username, new_user_data)])

/-- A login failure: an `HTTPException` raised by the handler, or an
exception escaping uncaught (passlib's `UnknownHashError` from
`verify_password`, possible only for a malformed stored digest). -/
inductive LoginFailure where
  | http (e : HTTPError)
  | uncaught (e : PasslibError)
  deriving Repr, DecidableEq

/-- The response model `Token` (auth.py line 63). -/
structure TokenOut where
  access_token : TokenWire
  token_type : String
  deriving Repr, DecidableEq

/-- `login_for_access_token` (auth.py line 107) at time `now`. -/
def login_for_access_token (db : Db) (now : Int) (username : String)
    (password : List Nat) : Except LoginFailure TokenOut :=
  if dbHasKey db username = false then
    .error (.http ⟨401, "Incorrect username or password", []⟩)
  else
    match dbLookup db username with
    | none => .error (.http ⟨401, "Incorrect username or password", []⟩)
    | some user_data =>
      match verify_password password user_data.hashed_password with
      | .error e => .error (.uncaught e)
      | .ok ok =>
        if ok then
          .ok ⟨create_access_token now ⟨some username⟩
                 (some (ACCESS_TOKEN_EXPIRE_MINUTES * 60)), "bearer"⟩
        else .error (.http ⟨401, "Incorrect username or password", []⟩)

/-- The `credentials_exception` of `get_current_user` (auth.py line
131). -/
def credentials_exception : HTTPError :=
  ⟨401, "Could not validate credentials", [("WWW-Authenticate", "Bearer")]⟩

/-- `get_current_user` (auth.py line 131) at time `now`: decode the
token (any `JWTError` becomes `credentials_exception`), require a `sub`
claim, and resolve it against the live store. -/
def get_current_user (db : Db) (now : Int) (token : TokenWire) :
    Except HTTPError UserRec :=
  match jwtDecode token SECRET_KEY now with
  | .error _ => .error credentials_exception
  | .ok payload =>
    match payload.sub with
    | none => .error credentials_exception
    | some username =>
      match dbLookup db username with
      | none => .error credentials_exception
      | some rec => .ok rec

/-! ## Reachable store states -/

/-- `signup` as a state transformer on the store. -/
def signupOp (db : Db) (salt : Nat) (u : UserSignup) : Except HTTPError User × Db :=
  signup db salt u

/-- `login_for_access_token` as a state transformer: it only reads the
store. -/
def loginOp (db : Db) (now : Int) (username : String) (password : List Nat) :
    Except LoginFailure TokenOut × Db :=
  (login_for_access_token db now username password, db)

/-- `get_current_user` as a state transformer: it only reads the
store. -/
def resolveOp (db : Db) (now : Int) (token : TokenWire) :
    Except HTTPError UserRec × Db :=
  (get_current_user db now token, db)

/-- Store states reachable from the empty `TEMP_USER_DATABASE` by any
sequence of the three operations. -/
inductive Reachable : Db → Prop where
  | empty : Reachable []
  | register (db : Db) (salt : Nat) (u : UserSignup) :
      Reachable db → Reachable (signupOp db salt u).2
  | login (db : Db) (now : Int) (username : String) (password : List Nat) :
      Reachable db → Reachable (loginOp db now username password).2
  | resolve (db : Db) (now : Int) (token : TokenWire) :
      Reachable db → Reachable (resolveOp db now token).2

/-! ## Helper lemmas -/

/-- Key membership and lookup agree: `username not in TEMP_USER_DATABASE`
exactly when the lookup is empty. -/
lemma dbHasKey_eq_false_iff (db : Db) (u : String) :
    dbHasKey db u = false ↔ dbLookup db u = none := by
  simp [dbHasKey, dbLookup, List.any_eq_false, List.find?_eq_none]

/-- The uniqueness invariant maintained by the store, together with the
bookkeeping fact that each record's `username` field is its dict key. -/
def StoreInv (db : Db) : Prop :=
  (db.map Prod.fst).Nodup ∧ (db.map (fun p => p.2.email)).Nodup ∧
    ∀ p ∈ db, p.2.username = p.1

lemma storeInv_signup (db : Db) (salt : Nat) (u : UserSignup) (h : StoreInv db) :
    StoreInv (signup db salt u).2 := by
  obtain ⟨hk, he, hf⟩ := h
  unfold signup
  split
  · exact ⟨hk, he, hf⟩
  · split
    · exact ⟨hk, he, hf⟩
    · rename_i h1 h2
      show StoreInv
        (db ++ [(u.username, ⟨u.username, u.email, get_password_hash salt u.password⟩)])
      have hk' : u.username ∉ db.map Prod.fst := by
        intro hmem
        rcases List.mem_map.1 hmem with ⟨p, hp, hpe⟩
        have hany : dbHasKey db u.username = true := by
          refine List.any_eq_true.2 ⟨p, hp, ?_⟩
          simp [hpe]
        exact h1 hany
      have he' : u.email ∉ db.map (fun p => p.2.email) := by
        intro hmem
        rcases List.mem_map.1 hmem with ⟨p, hp, hpe⟩
        have hany : (db.any fun p => p.2.email == u.email) = true := by
          refine List.any_eq_true.2 ⟨p, hp, ?_⟩
          simp [hpe]
        exact h2 hany
      refine ⟨?_, ?_, ?_⟩
      · rw [List.map_append, List.nodup_append]
        refine ⟨hk, List.nodup_singleton _, ?_⟩
        intro x hx hxa
        simp only [List.map_cons, List.map_nil, List.mem_singleton] at hxa
        subst hxa
        exact hk' hx
      · rw [List.map_append, List.nodup_append]
        refine ⟨he, List.nodup_singleton _, ?_⟩
        intro x hx hxa
        simp only [List.map_cons, List.map_nil, List.mem_singleton] at hxa
        subst hxa
        exact he' hx
      · intro p hp
        rcases List.mem_append.1 hp with hmem | hmem
        · exact hf p hmem
        · simp only [List.mem_singleton] at hmem
          subst hmem
          rfl

lemma storeInv_reachable (db : Db) (h : Reachable db) : StoreInv db := by
  induction h with
  | empty => exact ⟨List.nodup_nil, List.nodup_nil, by simp⟩
  | register db salt u _ ih => exact storeInv_signup db salt u ih
  | login db now username password _ ih => exact ih
  | resolve db now token _ ih => exact ih

/-! ## Claims -/

set_option maxRecDepth 100000 in
/-- Claim C1 (code bug): the spec requires `verify(P, hash(P))` to be
true for every plaintext `P` and `verify(P1, hash(P2))` to be false
whenever `P1` and `P2` differ within the first 72 bytes, verification
applying the same truncation as hashing.  The code violates both
halves: for `P` = 71 copies of `'a'` followed by `'é'` (73 UTF-8
bytes), `get_password_hash` truncates the encoding to 72 bytes and
drops the resulting dangling lead byte via `errors='ignore'`, hashing
only the 71 `'a'`s, while `verify_password` feeds the raw bytes to
bcrypt, which keeps the dangling byte — so the owner's password fails
to verify against its own digest, while the distinct password of 71
`'a'`s verifies successfully against it. -/
theorem truncation_mismatch_code_bug :
    verify_password (List.replicate 71 97 ++ [233])
        (get_password_hash 0 (List.replicate 71 97 ++ [233])) = .ok false ∧
      verify_password (List.replicate 71 97)
        (get_password_hash 0 (List.replicate 71 97 ++ [233])) = .ok true := by
  constructor
  · rfl
  · rfl

/-- Claim C2: issuing a token with subject `u` and decoding it
immediately with the same secret recovers exactly the subject `u` and
an expiry strictly in the future; the round-trip is lossless for the
subject field. -/
theorem token_roundtrip_subject (now : Int) (u : String) (d : Int) (hd : 0 < d) :
    jwtDecode (create_access_token now ⟨some u⟩ (some d)) SECRET_KEY now
        = .ok ⟨some u, now + d⟩ ∧
      now < now + d := by
  have hne : ¬ d = 0 := by omega
  have hlt : ¬ (now + d < now) := by omega
  refine ⟨?_, by omega⟩
  simp [create_access_token, jwtEncode, jwtDecode, hne, hlt]

/-- Witness for C2 at `now = 0`, `u = "alice"`, ttl 3600 s. -/
theorem token_roundtrip_subject_witness :
    jwtDecode (create_access_token 0 ⟨some "alice"⟩ (some 3600)) SECRET_KEY 0
        = .ok ⟨some "alice", 0 + 3600⟩ ∧
      (0 : Int) < 0 + 3600 :=
  token_roundtrip_subject 0 "alice" 3600 (by decide)

/-- Claim C3: login with an unregistered username and login with a
registered username but a non-matching password raise the identical
`HTTPException` — status 401, detail "Incorrect username or password" —
so the two failure causes are indistinguishable to the caller. -/
theorem login_failures_indistinguishable (db : Db) (now : Int)
    (u1 : String) (pw1 : List Nat) (u2 : String) (pw2 : List Nat) (rec : UserRec)
    (h1 : dbLookup db u1 = none)
    (h2 : dbLookup db u2 = some rec)
    (hw : verify_password pw2 rec.hashed_password = .ok false) :
    login_for_access_token db now u1 pw1
        = .error (.http ⟨401, "Incorrect username or password", []⟩) ∧
      login_for_access_token db now u2 pw2
        = .error (.http ⟨401, "Incorrect username or password", []⟩) := by
  constructor
  · have hk : dbHasKey db u1 = false := (dbHasKey_eq_false_iff db u1).2 h1
    simp [login_for_access_token, hk]
  · have hk : ¬ dbHasKey db u2 = false := by
      intro hfalse
      rw [(dbHasKey_eq_false_iff db u2).1 hfalse] at h2
      exact Option.noConfusion h2
    simp [login_for_access_token, hk, h2, hw]

/-- Witness for C3: a store holding only "alice"; "bob" is unknown,
and "alice" is presented with a wrong password. -/
theorem login_failures_indistinguishable_witness :
    login_for_access_token
        [("alice", ⟨"alice", "a@x.com", get_password_hash 0 [112]⟩)] 0 "bob" [112]
        = .error (.http ⟨401, "Incorrect username or password", []⟩) ∧
      login_for_access_token
        [("alice", ⟨"alice", "a@x.com", get_password_hash 0 [112]⟩)] 0 "alice" [113]
        = .error (.http ⟨401, "Incorrect username or password", []⟩) :=
  login_failures_indistinguishable
    [("alice", ⟨"alice", "a@x.com", get_password_hash 0 [112]⟩)] 0
    "bob" [112] "alice" [113] ⟨"alice", "a@x.com", get_password_hash 0 [112]⟩
    rfl rfl rfl

/-- Claim C4: `get_current_user` either succeeds or fails with the one
`credentials_exception` (401, "Could not validate credentials"),
whatever the store, the time, and the presented token — a corrupt
token, a bad signature, an expired token, a missing `sub` claim, and
an unknown subject are all indistinguishable. -/
theorem resolve_rejections_uniform (db : Db) (now : Int) (t : TokenWire) :
    (∃ r, get_current_user db now t = .ok r) ∨
      get_current_user db now t = .error credentials_exception := by
  cases hdec : jwtDecode t SECRET_KEY now with
  | error e =>
    right
    simp [get_current_user, hdec]
  | ok payload =>
    cases hsub : payload.sub with
    | none =>
      right
      simp [get_current_user, hdec, hsub]
    | some username =>
      cases hlook : dbLookup db username with
      | none =>
        right
        simp [get_current_user, hdec, hsub, hlook]
      | some rec =>
        left
        exact ⟨rec, by simp [get_current_user, hdec, hsub, hlook]⟩

/-- Counterexample for C5: python-jose rejects a token only when
`exp < now` (leeway 0), so a token is still accepted at the very second
of its expiry.  Here a token issued at 1000 with ttl 3600 s has
`expiresAt = 4600` and decoding at time 4600 — at the expiry, not
before it — succeeds, refuting "verification never succeeds at any
time at or after the token's expiresAt". -/
theorem token_valid_at_expiry_counterexample :
    jwtDecode (create_access_token 1000 ⟨some "alice"⟩ (some 3600)) SECRET_KEY 4600
      = .ok ⟨some "alice", 4600⟩ := by
  rfl

/-- Claim C5 as amended: verification never succeeds strictly after the
token's `expiresAt` (under any key), and a token issued with
ttl = -1 s, whose expiry is already strictly in the past, fails
decoding immediately with `ExpiredSignatureError`. -/
theorem token_never_valid_after_expiry :
    (∀ (t : Token) (key : String) (now : Int), t.payload.exp < now →
        ∀ p : TokenPayload, jwtDecode (.tok t) key now ≠ .ok p) ∧
      (∀ (now : Int) (u : PayloadData),
        jwtDecode (create_access_token now u (some (-1))) SECRET_KEY now
          = .error .expired) := by
  constructor
  · intro t key now h p
    show (if t.macKey = key ∧ t.macPayload = t.payload then
        if t.payload.exp < now then Except.error JWTError.expired
        else Except.ok t.payload
      else Except.error JWTError.badSignature) ≠ Except.ok p
    by_cases hsig : t.macKey = key ∧ t.macPayload = t.payload
    · rw [if_pos hsig, if_pos h]
      exact fun hc => Except.noConfusion hc
    · rw [if_neg hsig]
      exact fun hc => Except.noConfusion hc
  · intro now u
    have hne : ¬ (-1 : Int) = 0 := by decide
    have hlt : now + (-1) < now := by omega
    simp [create_access_token, jwtEncode, jwtDecode, hne, hlt]

/-- Witness for C5 (amended): a token with `exp = 5` is rejected at
time 6, and a ttl = -1 token issued at time 100 is rejected at time
100. -/
theorem token_never_valid_after_expiry_witness :
    jwtDecode (.tok ⟨⟨some "alice", 5⟩, "k", ⟨some "alice", 5⟩⟩) "k" 6
        ≠ .ok ⟨some "alice", 5⟩ ∧
      jwtDecode (create_access_token 100 ⟨some "alice"⟩ (some (-1))) SECRET_KEY 100
        = .error .expired :=
  ⟨token_never_valid_after_expiry.1 ⟨⟨some "alice", 5⟩, "k", ⟨some "alice", 5⟩⟩ "k" 6
      (by decide) ⟨some "alice", 5⟩,
    token_never_valid_after_expiry.2 100 ⟨some "alice"⟩⟩

/-- Claim C6: `signup` checks the username conflict before the email
conflict and short-circuits — a taken username yields the
"Username already registered" error whatever the email, and the
"Email already registered" error occurs exactly when the username is
free and the email is taken. -/
theorem signup_conflict_precedence (db : Db) (salt : Nat) (u : UserSignup) :
    (dbHasKey db u.username = true →
        (signup db salt u).1 = .error ⟨400, "Username already registered", []⟩) ∧
      ((signup db salt u).1 = .error ⟨400, "Email already registered", []⟩ →
        dbHasKey db u.username = false ∧
          db.any (fun p => p.2.email == u.email) = true) := by
  constructor
  · intro h
    simp [signup, h]
  · intro h
    by_cases h1 : dbHasKey db u.username
    · simp [signup, h1] at h
    · by_cases h2 : db.any (fun p => p.2.email == u.email)
      · exact ⟨by simpa using h1, h2⟩
      · simp [signup, h1, h2] at h

/-- Witness for C6: with "alice"/"a@x.com" registered, signing up
"alice"/"a@x.com" (both collide) reports the username conflict, and the
email-conflict outcome of "bob"/"a@x.com" implies username free and
email taken. -/
theorem signup_conflict_precedence_witness :
    ((signup [("alice", ⟨"alice", "a@x.com", DigestStr.wf ⟨0, [1]⟩⟩)] 0
          ⟨"alice", "a@x.com", [2]⟩).1
        = .error ⟨400, "Username already registered", []⟩) ∧
      (dbHasKey [("alice", ⟨"alice", "a@x.com", DigestStr.wf ⟨0, [1]⟩⟩)] "bob" = false ∧
        ([("alice", ⟨"alice", "a@x.com", DigestStr.wf ⟨0, [1]⟩⟩)] : Db).any
            (fun p => p.2.email == "a@x.com") = true) :=
  ⟨(signup_conflict_precedence [("alice", ⟨"alice", "a@x.com", DigestStr.wf ⟨0, [1]⟩⟩)] 0
        ⟨"alice", "a@x.com", [2]⟩).1 rfl,
    (signup_conflict_precedence [("alice", ⟨"alice", "a@x.com", DigestStr.wf ⟨0, [1]⟩⟩)] 0
        ⟨"bob", "a@x.com", [2]⟩).2 rfl⟩

/-- Claim C7: in every store state reachable from the empty
`TEMP_USER_DATABASE` by any sequence of signup, login and
current-user-resolution operations, the stored records' usernames are
pairwise distinct and their emails are pairwise distinct. -/
theorem store_uniqueness_invariant (db : Db) (h : Reachable db) :
    (db.map (fun p => p.2.username)).Nodup ∧
      (db.map (fun p => p.2.email)).Nodup := by
  obtain ⟨hk, he, hf⟩ := storeInv_reachable db h
  refine ⟨?_, he⟩
  have hmap : db.map (fun p => p.2.username) = db.map Prod.fst :=
    List.map_congr_left (fun p hp => hf p hp)
  rw [hmap]
  exact hk

/-- Witness for C7: the store reached by one successful signup from the
empty store satisfies both uniqueness properties. -/
theorem store_uniqueness_invariant_witness :
    (((signupOp [] 0 ⟨"alice", "a@x.com", [1]⟩).2).map (fun p => p.2.username)).Nodup ∧
      (((signupOp [] 0 ⟨"alice", "a@x.com", [1]⟩).2).map (fun p => p.2.email)).Nodup :=
  store_uniqueness_invariant (signupOp [] 0 ⟨"alice", "a@x.com", [1]⟩).2
    (Reachable.register [] 0 ⟨"alice", "a@x.com", [1]⟩ Reachable.empty)

/-- Claim C8 (code bug): the spec requires verification of a malformed
digest to return false and never throw; `verify_password` calls
`pwd_context.verify` with no exception handling, and passlib raises
`UnknownHashError` (a `ValueError`) on a digest it cannot identify, so
the error escapes the boundary instead of a `false` return. -/
theorem malformed_digest_raises :
    verify_password [120] (.malformed "not-a-hash") = .error .unknownHash ∧
      verify_password [120] (.malformed "not-a-hash") ≠ .ok false := by
  exact ⟨rfl, fun hc => Except.noConfusion hc⟩

/-- Claim C9: a successful `signup` returns exactly the public view —
the `User` response model, which carries only `username` and `email` —
and in particular the result is fully determined by the request's
username and email, independent of the password and its hash. -/
theorem signup_returns_public_view (db : Db) (salt : Nat) (u : UserSignup)
    (r : User) (db2 : Db) (h : signup db salt u = (.ok r, db2)) :
    r = ⟨u.username, u.email⟩ := by
  unfold signup at h
  split at h
  · injection h with h1 h2
    exact Except.noConfusion h1
  · split at h
    · injection h with h1 h2
      exact Except.noConfusion h1
    · injection h with h1 h2
      injection h1 with h3
      exact h3.symm

/-- Witness for C9: a concrete successful signup on the empty store. -/
theorem signup_returns_public_view_witness :
    signup [] 0 ⟨"alice", "a@x.com", [1]⟩
        = (.ok ⟨"alice", "a@x.com"⟩,
            [("alice", ⟨"alice", "a@x.com", get_password_hash 0 [1]⟩)]) ∧
      (⟨"alice", "a@x.com"⟩ : User) = ⟨"alice", "a@x.com"⟩ :=
  ⟨rfl,
    signup_returns_public_view [] 0 ⟨"alice", "a@x.com", [1]⟩ ⟨"alice", "a@x.com"⟩
      [("alice", ⟨"alice", "a@x.com", get_password_hash 0 [1]⟩)] rfl⟩

/-- Claim C10: a `signup` call that fails with either conflict leaves
the store exactly as it was — the rejection is atomic. -/
theorem signup_failure_atomic (db : Db) (salt : Nat) (u : UserSignup) (e : HTTPError)
    (h : (signup db salt u).1 = .error e) :
    (signup db salt u).2 = db := by
  by_cases h1 : dbHasKey db u.username
  · simp [signup, h1]
  · by_cases h2 : db.any (fun p => p.2.email == u.email)
    · simp [signup, h1, h2]
    · exfalso
      simp [signup, h1, h2] at h

/-- Witness for C10: a duplicate-username signup fails and the store is
unchanged. -/
theorem signup_failure_atomic_witness :
    ((signup [("alice", ⟨"alice", "a@x.com", DigestStr.wf ⟨0, [1]⟩⟩)] 0
          ⟨"alice", "b@y.com", [2]⟩).1
        = .error ⟨400, "Username already registered", []⟩) ∧
      (signup [("alice", ⟨"alice", "a@x.com", DigestStr.wf ⟨0, [1]⟩⟩)] 0
          ⟨"alice", "b@y.com", [2]⟩).2
        = [("alice", ⟨"alice", "a@x.com", DigestStr.wf ⟨0, [1]⟩⟩)] :=
  ⟨rfl,
    signup_failure_atomic [("alice", ⟨"alice", "a@x.com", DigestStr.wf ⟨0, [1]⟩⟩)] 0
      ⟨"alice", "b@y.com", [2]⟩ ⟨400, "Username already registered", []⟩ rfl⟩

end OvaCare
